import Mathlib

/-!
# Verification of the vplan2019 authentication and storage layer

Shallow embedding of the Go sources of `zekroTJA/vplan2019`:

* `internal/database/drivers` MySQL driver (`part_000`): the API-token store
  (`SetUserAPIToken`, `GetUserAPIToken`) and `GetVPlans`;
* the debug auth provider (`part_001`): `DebugAuthProvider.Authenticate`;
* `internal/webserver/handlers.go`: `handlerAPIAuthenticate` and the
  response-building tail of `handlerAPIGetVPlan`.

Machine integers are modelled as `Nat`/`Int` with explicit reductions where
overflow matters; fallible operations return explicit error options; database
and network effects are passed in as explicit state / oracle arguments.
-/

namespace VPlan

/-! ## SHA-256 (Go `crypto/sha256`, used by the debug auth provider)

`DebugAuthProvider.Authenticate` computes
`fmt.Sprintf("%x", sha256.Sum256([]byte(username+password)))`.
We embed SHA-256 (FIPS 180-4) over byte lists, with 32-bit words as `Nat`
reduced mod 2^32. -/

namespace Sha256

/-- 2^32, the modulus of 32-bit words. -/
def M32 : Nat := 4294967296

/-- 32-bit addition. -/
def add32 (a b : Nat) : Nat := (a + b) % M32

/-- 32-bit right rotation by `n` (for `0 < n < 32` and `x < 2^32`). -/
def rotr32 (n x : Nat) : Nat := (x >>> n) ||| ((x <<< (32 - n)) % M32)

/-- 32-bit bitwise complement. -/
def not32 (x : Nat) : Nat := x ^^^ (M32 - 1)

/-- The SHA-256 choice function. -/
def ch (x y z : Nat) : Nat := (x &&& y) ^^^ (not32 x &&& z)

/-- The SHA-256 majority function. -/
def maj (x y z : Nat) : Nat := (x &&& y) ^^^ (x &&& z) ^^^ (y &&& z)

/-- Σ₀. -/
def bigSigma0 (x : Nat) : Nat := rotr32 2 x ^^^ rotr32 13 x ^^^ rotr32 22 x

/-- Σ₁. -/
def bigSigma1 (x : Nat) : Nat := rotr32 6 x ^^^ rotr32 11 x ^^^ rotr32 25 x

/-- σ₀. -/
def smallSigma0 (x : Nat) : Nat := rotr32 7 x ^^^ rotr32 18 x ^^^ (x >>> 3)

/-- σ₁. -/
def smallSigma1 (x : Nat) : Nat := rotr32 17 x ^^^ rotr32 19 x ^^^ (x >>> 10)

/-- The 64 SHA-256 round constants. -/
def K : List Nat :=
  [1116352408, 1899447441, 3049323471, 3921009573, 961987163,
   1508970993, 2453635748, 2870763221, 3624381080, 310598401,
   607225278, 1426881987, 1925078388, 2162078206, 2614888103,
   3248222580, 3835390401, 4022224774, 264347078, 604807628,
   770255983, 1249150122, 1555081692, 1996064986, 2554220882,
   2821834349, 2952996808, 3210313671, 3336571891, 3584528711,
   113926993, 338241895, 666307205, 773529912, 1294757372,
   1396182291, 1695183700, 1986661051, 2177026350, 2456956037,
   2730485921, 2820302411, 3259730800, 3345764771, 3516065817,
   3600352804, 4094571909, 275423344, 430227734, 506948616,
   659060556, 883997877, 958139571, 1322822218, 1537002063,
   1747873779, 1955562222, 2024104815, 2227730452, 2361852424,
   2428436474, 2756734187, 3204031479, 3329325298]

/-- The SHA-256 initial hash value. -/
def H0 : List Nat :=
  [1779033703, 3144134277, 1013904242, 2773480762,
   1359893119, 2600822924, 528734635, 1541459225]

/-- UTF-8 encoding of one character (Go `[]byte(string)` semantics). -/
def utf8EncodeChar (c : Char) : List Nat :=
  let n := c.toNat
  if n < 128 then [n]
  else if n < 2048 then [192 + n / 64, 128 + n % 64]
  else if n < 65536 then [224 + n / 4096, 128 + (n / 64) % 64, 128 + n % 64]
  else [240 + n / 262144, 128 + (n / 4096) % 64, 128 + (n / 64) % 64, 128 + n % 64]

/-- UTF-8 bytes of a string, as Go's `[]byte(s)`. -/
def utf8Bytes (s : String) : List Nat := (s.data.map utf8EncodeChar).flatten

/-- Big-endian 8-byte encoding of a 64-bit value. -/
def be64 (n : Nat) : List Nat :=
  [(n >>> 56) % 256, (n >>> 48) % 256, (n >>> 40) % 256, (n >>> 32) % 256,
   (n >>> 24) % 256, (n >>> 16) % 256, (n >>> 8) % 256, n % 256]

/-- SHA-256 padding: append `0x80`, zeros to 56 mod 64, then the bit length. -/
def padMessage (msg : List Nat) : List Nat :=
  let L := msg.length
  let z := (119 - L % 64) % 64
  msg ++ [128] ++ List.replicate z 0 ++ be64 (8 * L)

/-- Split a byte list into 64-byte chunks (`fuel` bounds the recursion). -/
def chunks64 : Nat → List Nat → List (List Nat)
  | 0, _ => []
  | _ + 1, [] => []
  | fuel + 1, l => l.take 64 :: chunks64 fuel (l.drop 64)

/-- Group bytes into big-endian 32-bit words. -/
def bytesToWords : List Nat → List Nat
  | a :: b :: c :: d :: rest => (((a * 256 + b) * 256 + c) * 256 + d) :: bytesToWords rest
  | _ => []

/-- One step of the message-schedule extension: append word `t` (= current length). -/
def scheduleStep (ws : List Nat) : List Nat :=
  let t := ws.length
  ws ++ [add32 (add32 (smallSigma1 (ws.getD (t - 2) 0)) (ws.getD (t - 7) 0))
               (add32 (smallSigma0 (ws.getD (t - 15) 0)) (ws.getD (t - 16) 0))]

/-- Iterate the schedule extension `n` times. -/
def extendW : Nat → List Nat → List Nat
  | 0, ws => ws
  | n + 1, ws => extendW n (scheduleStep ws)

/-- The eight SHA-256 working registers. -/
structure Regs where
  a : Nat
  b : Nat
  c : Nat
  d : Nat
  e : Nat
  f : Nat
  g : Nat
  h : Nat

/-- One SHA-256 compression round at index `t`. -/
def round (ws : List Nat) (t : Nat) (r : Regs) : Regs :=
  let t1 := add32 r.h (add32 (bigSigma1 r.e)
    (add32 (ch r.e r.f r.g) (add32 (K.getD t 0) (ws.getD t 0))))
  let t2 := add32 (bigSigma0 r.a) (maj r.a r.b r.c)
  ⟨add32 t1 t2, r.a, r.b, r.c, add32 r.d t1, r.e, r.f, r.g⟩

/-- Run rounds `t, t+1, …` for `n` steps. -/
def roundsFrom (ws : List Nat) : Nat → Nat → Regs → Regs
  | _, 0, r => r
  | t, n + 1, r => roundsFrom ws (t + 1) n (round ws t r)

/-- Compress one 64-byte block into the running hash (eight words). -/
def compress (hs : List Nat) (block : List Nat) : List Nat :=
  let ws := extendW 48 (bytesToWords block)
  let r0 : Regs := ⟨hs.getD 0 0, hs.getD 1 0, hs.getD 2 0, hs.getD 3 0,
                    hs.getD 4 0, hs.getD 5 0, hs.getD 6 0, hs.getD 7 0⟩
  let r := roundsFrom ws 0 64 r0
  [add32 (hs.getD 0 0) r.a, add32 (hs.getD 1 0) r.b, add32 (hs.getD 2 0) r.c,
   add32 (hs.getD 3 0) r.d, add32 (hs.getD 4 0) r.e, add32 (hs.getD 5 0) r.f,
   add32 (hs.getD 6 0) r.g, add32 (hs.getD 7 0) r.h]

/-- Big-endian 4-byte encoding of a 32-bit word. -/
def wordBytes (w : Nat) : List Nat := [(w >>> 24) % 256, (w >>> 16) % 256, (w >>> 8) % 256, w % 256]

/-- The SHA-256 digest (32 bytes) of a byte message. -/
def sha256Bytes (msg : List Nat) : List Nat :=
  let padded := padMessage msg
  let hs := (chunks64 padded.length padded).foldl compress H0
  (hs.map wordBytes).flatten

/-- Lowercase hex digit. -/
def hexDigit (n : Nat) : Char := if n < 10 then Char.ofNat (48 + n) else Char.ofNat (87 + n)

/-- Lowercase hex of a byte list, as Go's `fmt.Sprintf("%x", …)` on bytes. -/
def bytesToHex (bs : List Nat) : String :=
  ⟨(bs.map (fun b => [hexDigit (b / 16), hexDigit (b % 16)])).flatten⟩

/-- `fmt.Sprintf("%x", sha256.Sum256([]byte(s)))`. -/
def sha256hex (s : String) : String := bytesToHex (sha256Bytes (utf8Bytes s))

end Sha256

/-! ## Debug auth provider (`part_001`)

```go
func (d *DebugAuthProvider) Connect(options config.Model) error {
    d.cfg = options
    d.creds = map[string]string{ "test": "passwd" }
    return nil
}
func (d *DebugAuthProvider) Authenticate(username, password string) (*auth.Response, error) {
    if pw, ok := d.creds[username]; ok && pw == password {
        ident := fmt.Sprintf("%x", sha256.Sum256([]byte(username+password)))
        return &auth.Response{ Ident: ident }, nil
    }
    return nil, errors.New("unauthorized")
}
```
The credential map is modelled as an association list; the `(*auth.Response,
error)` pair as `Option AuthResponse × Option String` (`none` = Go `nil`). -/

/-- `auth.Response`: identity plus an optional provider context payload
(`Ctx interface\x7b\x7d`; the debug provider leaves it nil). -/
structure AuthResponse where
  ident : String
  ctx : Option String
deriving DecidableEq, Repr

/-- The credential map installed by `DebugAuthProvider.Connect`. -/
def debugCreds : List (String × String) := [("test", "passwd")]

/-- Go map lookup `d.creds[username]`. -/
def lookupCred (creds : List (String × String)) (u : String) : Option String :=
  (creds.find? (fun p => p.1 == u)).map Prod.snd

/-- `DebugAuthProvider.Authenticate` (part_001 lines 37-45). -/
def debugAuthenticate (creds : List (String × String)) (username password : String) :
    Option AuthResponse × Option String :=
  match lookupCred creds username with
  | some pw =>
    if pw == password then
      (some ⟨Sha256.sha256hex (username ++ password), none⟩, none)
    else (none, some "unauthorized")
  | none => (none, some "unauthorized")

/-! ## Wall-clock timestamps (Go `time.Time` / MySQL `timestamp` columns)

The driver's DSN (`"%s:%s@tcp(%s)/%s"`) sets no `parseTime` option, so
`go-sql-driver/mysql` returns `timestamp` columns as raw bytes formatted
`"2006-01-02 15:04:05"`, and serializes a `time.Time` bind parameter into that
column (second precision).  A timestamp value is modelled to the second. -/

/-- A wall-clock instant to second precision (the precision of the repo's
`timeFormat = "2006-01-02 15:04:05"` and of a MySQL `timestamp` column). -/
structure DateTime where
  year : Nat
  month : Nat
  day : Nat
  hour : Nat
  minute : Nat
  second : Nat
deriving DecidableEq, Repr

/-- Go's zero `time.Time` (January 1, year 1, 00:00:00). -/
def goZeroTime : DateTime := ⟨1, 1, 1, 0, 0, 0⟩

/-- Zero-pad a number to two digits. -/
def pad2 (n : Nat) : String := if n < 10 then "0" ++ toString n else toString n

/-- Zero-pad a number to four digits. -/
def pad4 (n : Nat) : String :=
  if n < 10 then "000" ++ toString n
  else if n < 100 then "00" ++ toString n
  else if n < 1000 then "0" ++ toString n
  else toString n

/-- Format a timestamp as the repo's `timeFormat = "2006-01-02 15:04:05"`,
which is also the text form of a MySQL `timestamp` column. -/
def formatTimestamp (t : DateTime) : String :=
  pad4 t.year ++ "-" ++ pad2 t.month ++ "-" ++ pad2 t.day ++ " " ++
    pad2 t.hour ++ ":" ++ pad2 t.minute ++ ":" ++ pad2 t.second

/-- Leap-year test (Gregorian). -/
def isLeapYear (y : Nat) : Bool := y % 4 == 0 && (y % 100 != 0 || y % 400 == 0)

/-- Days in a month. -/
def daysIn (year month : Nat) : Nat :=
  if month == 2 then (if isLeapYear year then 29 else 28)
  else if month == 4 || month == 6 || month == 9 || month == 11 then 30
  else 31

/-- The numeric value of a decimal digit character, if it is one. -/
def digitVal (c : Char) : Option Nat :=
  if c.isDigit then some (c.toNat - 48) else none

/-- Parse exactly two decimal digits. -/
def parse2 : List Char → Option (Nat × List Char)
  | a :: b :: rest =>
    match digitVal a, digitVal b with
    | some x, some y => some (x * 10 + y, rest)
    | _, _ => none
  | _ => none

/-- Parse exactly four decimal digits. -/
def parse4 (l : List Char) : Option (Nat × List Char) := do
  let (hi, l1) ← parse2 l
  let (lo, l2) ← parse2 l1
  pure (hi * 100 + lo, l2)

/-- Expect a literal character. -/
def parseLit (c : Char) : List Char → Option (List Char)
  | x :: rest => if x == c then some rest else none
  | [] => none

/-- Go's `time.Parse("2006-01-02 15:04:05", s)`: four-digit year, two-digit
zero-padded fields, literal separators, nothing trailing, and ranges checked
(month 1-12, day 1-days-in-month, hour < 24, minute < 60, second < 60). -/
def parseTimestamp (s : String) : Option DateTime := do
  let l := s.data
  let (y, l) ← parse4 l
  let l ← parseLit '-' l
  let (mo, l) ← parse2 l
  let l ← parseLit '-' l
  let (d, l) ← parse2 l
  let l ← parseLit ' ' l
  let (h, l) ← parse2 l
  let l ← parseLit ':' l
  let (mi, l) ← parse2 l
  let l ← parseLit ':' l
  let (sec, l) ← parse2 l
  if l.isEmpty && 1 ≤ mo && mo ≤ 12 && 1 ≤ d && d ≤ daysIn y mo &&
      h < 24 && mi < 60 && sec < 60 then
    pure ⟨y, mo, d, h, mi, sec⟩
  else none

/-! ## MySQL API-token store (`part_000`)

The `apitoken` table (`id` auto-increment primary key, `ident`, `token`,
`expire timestamp`; no uniqueness constraint on `ident`) is modelled as a list
of rows in insertion order, the `expire` column in its text form.  Prepared
statements:

* `updateAPIToken`:  `UPDATE apitoken SET token = ?, expire = ? WHERE ident = ?`
* `insertAPIToken`:  `INSERT INTO apitoken (ident, token, expire) VALUES (?, ?, ?)`
* `selectAPITokenByIdent`: `SELECT token, expire FROM apitoken WHERE ident = ?`

Driver-level failures (connection faults, SQL errors) are external
nondeterminism and are passed in as an oracle. -/

/-- One row of the `apitoken` table. -/
structure TokenRow where
  ident : String
  token : String
  expire : String
deriving DecidableEq, Repr

/-- Driver-level failure oracle for one `SetUserAPIToken` call: whether
`updateAPIToken.Exec`, `res.RowsAffected()` and `insertAPIToken.Exec` fail. -/
structure ExecOracle where
  updateErr : Option String
  rowsAffectedErr : Option String
  insertErr : Option String
deriving DecidableEq, Repr

/-- The all-successful oracle. -/
def execOk : ExecOracle := ⟨none, none, none⟩

/-- Effect of `UPDATE apitoken SET token = ?, expire = ? WHERE ident = ?`
on the table. -/
def updateTokenRows (ident token expire : String) (db : List TokenRow) : List TokenRow :=
  db.map (fun r => if r.ident == ident then ⟨r.ident, token, expire⟩ else r)

/-- The affected-row count reported for that `UPDATE`: `go-sql-driver/mysql`
does not set `CLIENT_FOUND_ROWS`, so MySQL reports rows *changed* — rows
matching `ident` whose values actually differ from the new ones. -/
def rowsChanged (ident token expire : String) (db : List TokenRow) : Nat :=
  (db.filter (fun r => r.ident == ident && !(r.token == token && r.expire == expire))).length

/-- `(*MySQL).SetUserAPIToken` (part_000 lines 150-161):

```go
res, err := s.stmts.updateAPIToken.Exec(token, expire, ident)
if err != nil { return err }
if ar, err := res.RowsAffected(); err != nil {
    return err
} else if ar < 1 {
    _, err = s.stmts.insertAPIToken.Exec(ident, token, expire)
}
return err
```

The `err` declared by the `if` initializer shadows the outer `err`; the final
`return err` returns the outer one, which is necessarily `nil` there — so a
failure of the fallback insert is never surfaced.  Returns the Go error and
the resulting table. -/
def SetUserAPIToken (o : ExecOracle) (db : List TokenRow) (ident token : String)
    (expire : DateTime) : Option String × List TokenRow :=
  let es := formatTimestamp expire
  match o.updateErr with
  | some e => (some e, db)
  | none =>
    let db1 := updateTokenRows ident token es db
    match o.rowsAffectedErr with
    | some e => (some e, db1)
    | none =>
      if rowsChanged ident token es db < 1 then
        match o.insertErr with
        | some _ => (none, db1)
        | none => (none, db1 ++ [⟨ident, token, es⟩])
      else (none, db1)

/-- `strconv.ParseInt(s, 10, 64)` as invoked by `database/sql.convertAssign`
when scanning a `[]byte` column value into an `*int64` destination: optional
sign, at least one digit, digits only, 64-bit range. -/
def parseInt64 (s : String) : Option Int :=
  match s.data with
  | [] => none
  | c :: rest =>
    let (neg, ds) :=
      if c == '-' then (true, rest) else if c == '+' then (false, rest) else (false, s.data)
    if ds.isEmpty || !(ds.all Char.isDigit) then none
    else
      let n : Nat := ds.foldl (fun acc d => acc * 10 + (d.toNat - 48)) 0
      let v : Int := if neg then -(n : Int) else (n : Int)
      if -(2 ^ 63) ≤ v && v < 2 ^ 63 then some v else none

/-- `row.Scan(&token, &expire)` with `expire int64`: the `timestamp` column
arrives as bytes and `convertAssign` runs `strconv.ParseInt` on it. -/
def scanInt64 (s : String) : Except String Int :=
  match parseInt64 s with
  | some v => .ok v
  | none => .error ("sql: converting driver.Value type to a int64: invalid syntax")

/-- Go's `string(n)` on an integer: the UTF-8 encoding of the code point `n`
(the Unicode replacement character when `n` is not a valid code point). -/
def goStringOfInt64 (n : Int) : String :=
  if 0 ≤ n && n < 1114112 && (n < 55296 || 57344 ≤ n) then
    String.singleton (Char.ofNat n.toNat)
  else "�"

/-- `(*MySQL).GetUserAPIToken` (part_000 lines 131-147):

```go
var token string
var expire int64
row := s.stmts.selectAPITokenByIdent.QueryRow(ident)
err := row.Scan(&token, &expire)
if err != nil {
    if err == sql.ErrNoRows { err = nil }
    return "", time.Time\x7b\x7d, err
}
tExpire, err := time.Parse(timeFormat, string(expire))
return token, tExpire, err
```

`QueryRow` yields the first matching row (or `sql.ErrNoRows`).  Returns
`(token, expire, error)`. -/
def GetUserAPIToken (db : List TokenRow) (ident : String) :
    String × DateTime × Option String :=
  match db.find? (fun r => r.ident == ident) with
  | none => ("", goZeroTime, none)
  | some r =>
    match scanInt64 r.expire with
    | .error e => ("", goZeroTime, some e)
    | .ok n =>
      match parseTimestamp (goStringOfInt64 n) with
      | some t => (r.token, t, none)
      | none => (r.token, goZeroTime, some "parsing time: cannot parse value")

/-! ## VPlan aggregation (`(*MySQL).GetVPlans`, part_000 lines 188-231)

The two SQL row sets (`vplan` rows after the timestamp, and the
`vplan_details` rows per vplan id, optionally filtered by class) are external
inputs; so is whether each individual `rows.Scan` succeeds.  They are passed
in as oracles: a row set is an `Except` (the `Query` call itself can fail)
of a list of per-row scan outcomes. -/

namespace Database

/-- `database.VPlanEntry` (field names as in the Go struct, including the
`Messures`/`Resposible` typos). -/
structure VPlanEntry where
  ID : Int
  VPlanID : Int
  Class : String
  Time : String
  Messures : String
  Resposible : String
deriving DecidableEq, Repr

/-- `database.VPlan`. -/
structure VPlan where
  ID : Int
  DateEdit : DateTime
  DateFor : DateTime
  Block : String
  Header : String
  Footer : String
  Entries : List VPlanEntry
deriving DecidableEq, Repr

end Database

/-- `Modelled from the spec:` the repository's `pkg/multierror` package is not
under `src/`.  Per the spec, partial failures "are accumulated and only
surfaced as an aggregate error" — `Append` collects each non-nil error and
`Concat` yields nil exactly when none was collected, else one combined
error. -/
def meConcat (errs : List String) : Option String :=
  if errs.isEmpty then none else some (String.intercalate "; " errs)

/-- The raw column values of one successfully transferred `vplan` row, before
`rows.Scan` interprets them (timestamps still in column text form). -/
structure VPlanScan where
  ID : Int
  DateEdit : String
  DateFor : String
  Block : String
  Header : String
  Footer : String
deriving DecidableEq, Repr

/-- The database-side inputs of one `GetVPlans` call. -/
structure VPlanDB where
  vplanRows : DateTime → Except String (List (Except String VPlanScan))
  entryRows : Int → Except String (List (Except String Database.VPlanEntry))
  entryRowsByClass : Int → String → Except String (List (Except String Database.VPlanEntry))

/-- Build a `database.VPlan` from a scanned row, as the first loop does:
date-parse failures are discarded (`vplan.DateEdit, _ = time.Parse(…)`),
leaving the zero time; `Entries` starts empty. -/
def mkVPlan (r : VPlanScan) : Database.VPlan :=
  ⟨r.ID, (parseTimestamp r.DateEdit).getD goZeroTime,
    (parseTimestamp r.DateFor).getD goZeroTime, r.Block, r.Header, r.Footer, []⟩

/-- The first loop of `GetVPlans`: scan each `vplan` row, skip rows whose scan
fails, record the scan errors. -/
def scanVPlanRows : List (Except String VPlanScan) → List Database.VPlan × List String
  | [] => ([], [])
  | .error e :: rest => ((scanVPlanRows rest).1, e :: (scanVPlanRows rest).2)
  | .ok r :: rest => (mkVPlan r :: (scanVPlanRows rest).1, (scanVPlanRows rest).2)

/-- The inner loop of the second pass: scan each entry row, skip failures,
record the errors. -/
def scanEntryRows : List (Except String Database.VPlanEntry) →
    List Database.VPlanEntry × List String
  | [] => ([], [])
  | .error e :: rest => ((scanEntryRows rest).1, e :: (scanEntryRows rest).2)
  | .ok en :: rest => (en :: (scanEntryRows rest).1, (scanEntryRows rest).2)

/-- Replace a vplan's entry list. -/
def setEntries (v : Database.VPlan) (ens : List Database.VPlanEntry) : Database.VPlan :=
  ⟨v.ID, v.DateEdit, v.DateFor, v.Block, v.Header, v.Footer, ens⟩

/-- The second loop of `GetVPlans`: for each collected vplan, query its entries
(`selectVPlanEntriesByClass` when `class` is non-empty, else
`selectVPlanEntries`); a failed query records its error and leaves that
vplan's entries untouched (`continue`); scanned entries are attached. -/
def attachEntries (db : VPlanDB) (cls : String) :
    List Database.VPlan → List Database.VPlan × List String
  | [] => ([], [])
  | v :: rest =>
    match (if cls != "" then db.entryRowsByClass v.ID cls else db.entryRows v.ID) with
    | .error e => (v :: (attachEntries db cls rest).1, e :: (attachEntries db cls rest).2)
    | .ok eraws =>
      (setEntries v (scanEntryRows eraws).1 :: (attachEntries db cls rest).1,
       (scanEntryRows eraws).2 ++ (attachEntries db cls rest).2)

/-- `(*MySQL).GetVPlans` (part_000 lines 188-231): a failing `vplan` query
aborts with its error; otherwise both loops run, every failure is appended to
the multierror, and the collected vplans are returned together with
`mErr.Concat()`. -/
def GetVPlans (db : VPlanDB) (cls : String) (timestamp : DateTime) :
    List Database.VPlan × Option String :=
  match db.vplanRows timestamp with
  | .error e => ([], some e)
  | .ok raws =>
    ((attachEntries db cls (scanVPlanRows raws).1).1,
     meConcat ((scanVPlanRows raws).2 ++ (attachEntries db cls (scanVPlanRows raws).1).2))

/-! ## The webserver handlers (`internal/webserver/handlers.go`)

HTTP-transport inputs (rate-limiter verdict, URL parameters, body parsing,
session-store saves, the token manager) enter as oracle fields.  A handler run
produces a status, a JSON body and possibly a `Set-Cookie`. -/

/-- `authRequestData`: the parsed body of `POST /api/authenticate/:USERNAME`. -/
structure AuthRequestData where
  Password : String
  Group : String
  Session : Int
deriving DecidableEq, Repr

/-- The JSON body written by `handlerAPIAuthenticate`: an `apiError` envelope,
an `authResponseData`, or an `authTokenResposeData`. -/
inductive AuthBody where
  | err (code : Nat) (msg : String)
  | sessionData (ident : String) (ctx : Option String)
  | tokenData (ident : String) (ctx : Option String) (token : String) (expire : Nat)
deriving DecidableEq, Repr

/-- The session cookie established on the session path: the identity stored in
`session.Values["ident"]` and the cookie's max-age. -/
structure SessionCookie where
  ident : String
  maxAge : Int
deriving DecidableEq, Repr

/-- One observable HTTP response of the authenticate handler. -/
structure HttpResponse where
  status : Nat
  body : AuthBody
  cookie : Option SessionCookie
deriving DecidableEq, Repr

/-- `Modelled from the spec:` `internal/auth`'s token manager (`s.tokenManager.Set`,
not under `src/`).  Per §4.2 it looks up an existing live token for the
identity; if absent (or the store signals no rows) it generates a new opaque
random token and the expiry `now + TTL`, and upserts; store failures are
surfaced.  `existing` is the stored live token, `rand` the generated random
token, `now`/`ttl` in seconds. -/
def tokenManagerSet (existing : Option (String × Nat)) (storeErr : Option String)
    (rand : String) (now ttl : Nat) : Except String (String × Nat) :=
  match storeErr with
  | some e => .error e
  | none =>
    match existing with
    | some te => .ok te
    | none => .ok (rand, now + ttl)

/-- The transport-level inputs of one `handlerAPIAuthenticate` run. -/
structure AuthHandlerArgs where
  limiterOk : Bool
  usernameParam : Option String
  body : Except String AuthRequestData
  authProvider : String → String → String → Option AuthResponse × Option String
  defaultMaxAge : Int
  rememberMaxAge : Int
  saveErr : Option String
  tokenSet : String → Except String (String × Nat)

/-- `(*Server).handlerAPIAuthenticate` (handlers.go lines 45-113), step for
step: rate-limit gate (the limiter writes the 429 reply itself); missing
`username` URL parameter → 400; body parse failure → 400 with the parse error;
empty password → 400; `Authenticate` error → 401 with blank message; a nil
`*auth.Response` with nil error is replaced by an empty `auth.Response`;
`Session > 0` establishes the cookie session (max-age switched to
`RememberMaxAge` when `Session > 1`, save failure → 500) and answers
`\x7bident, ctx\x7d`; otherwise `tokenManager.Set` issues a token (failure →
500) and the answer is `\x7bident, ctx, token, expire\x7d` with no cookie. -/
def handlerAPIAuthenticate (a : AuthHandlerArgs) : HttpResponse :=
  if !a.limiterOk then ⟨429, .err 429 "", none⟩
  else
    match a.usernameParam with
    | none => ⟨400, .err 400 "", none⟩
    | some uname =>
      match a.body with
      | .error e => ⟨400, .err 400 e, none⟩
      | .ok reqData =>
        if reqData.Password == "" then ⟨400, .err 400 "", none⟩
        else
          match a.authProvider uname reqData.Group reqData.Password with
          | (_, some _) => ⟨401, .err 401 "", none⟩
          | (authDataOpt, none) =>
            let authData := authDataOpt.getD ⟨"", none⟩
            if reqData.Session > 0 then
              let maxAge := if reqData.Session > 1 then a.rememberMaxAge else a.defaultMaxAge
              match a.saveErr with
              | some e => ⟨500, .err 500 e, none⟩
              | none => ⟨200, .sessionData authData.ident authData.ctx,
                  some ⟨authData.ident, maxAge⟩⟩
            else
              match a.tokenSet authData.ident with
              | .error e => ⟨500, .err 500 e, none⟩
              | .ok te => ⟨200, .tokenData authData.ident authData.ctx te.1 te.2, none⟩

/-- The observable outcome of `handlerAPIGetVPlan`. -/
inductive VPlanResp where
  | rateLimited
  | unauthorized
  | badRequest (msg : String)
  | internalError (msg : String)
  | ok (data : List Database.VPlan)
deriving DecidableEq, Repr

/-- Consume an RFC3339 fractional-second part: a `.` followed by at least one
digit; anything else is left in place (and will fail the zone check). -/
def skipFraction (l : List Char) : List Char :=
  match l with
  | '.' :: rest =>
    if (rest.headD ' ').isDigit then rest.dropWhile Char.isDigit else l
  | _ => l

/-- An RFC3339 zone designator, consuming the rest of the input: `Z`, or
`±hh:mm` with `hh < 24` and `mm < 60`. -/
def isZone (l : List Char) : Bool :=
  match l with
  | ['Z'] => true
  | [sign, h1, h2, colon, m1, m2] =>
    (sign == '+' || sign == '-') && colon == ':' &&
      h1.isDigit && h2.isDigit && m1.isDigit && m2.isDigit &&
      (h1.toNat - 48) * 10 + (h2.toNat - 48) < 24 &&
      (m1.toNat - 48) * 10 + (m2.toNat - 48) < 60
  | _ => false

/-- `Modelled from the spec:` Go's `time.Parse(time.RFC3339, s)` (standard
library).  Strict RFC3339: date, `T`, time, optional fractional seconds, then
`Z` or a `±hh:mm` offset; the clock fields are returned (the offset only fixes
the instant's zone, which no downstream code here inspects). -/
def parseRFC3339 (s : String) : Option DateTime := do
  let l := s.data
  let (y, l) ← parse4 l
  let l ← parseLit '-' l
  let (mo, l) ← parse2 l
  let l ← parseLit '-' l
  let (d, l) ← parse2 l
  let l ← parseLit 'T' l
  let (h, l) ← parse2 l
  let l ← parseLit ':' l
  let (mi, l) ← parse2 l
  let l ← parseLit ':' l
  let (sec, l) ← parse2 l
  if isZone (skipFraction l) && 1 ≤ mo && mo ≤ 12 && 1 ≤ d && d ≤ daysIn y mo &&
      h < 24 && mi < 60 && sec < 60 then
    pure ⟨y, mo, d, h, mi, sec⟩
  else none

/-- `(*Server).handlerAPIGetVPlan` (handlers.go lines 126-164): rate-limit
gate; `reqAuth.Check` (an identity of `""` means the check already wrote its
rejection); `time` query parameter defaults to now, else must parse as
RFC3339 (400 otherwise); then `GetVPlans` — any non-nil aggregate error yields
a 500 whose message is that error, else 200 with the data. -/
def handlerAPIGetVPlan (limiterOk : Bool) (ident : String) (classParam timeParam : String)
    (now : DateTime) (db : VPlanDB) : VPlanResp :=
  if !limiterOk then .rateLimited
  else if ident == "" then .unauthorized
  else
    let tRes : Option DateTime :=
      if timeParam == "" then some now else parseRFC3339 timeParam
    match tRes with
    | none => .badRequest "time format is not RFC3339"
    | some t =>
      match GetVPlans db classParam t with
      | (_, some e) => .internalError e
      | (vplans, none) => .ok vplans

/-- The debug provider plugged into the handler's `(username, group, password)`
call shape: `DebugAuthProvider.Authenticate` takes no group argument, so the
group is dropped. -/
def debugProvider (creds : List (String × String)) :
    String → String → String → Option AuthResponse × Option String :=
  fun username _group password => debugAuthenticate creds username password

/-- A concrete `vplan` row transfer used as a test fixture. -/
def c2raw : VPlanScan := ⟨1, "2019-01-01 00:00:00", "2019-01-02 00:00:00", "A", "hd", "ft"⟩

/-- A database fixture: the `vplan` query delivers one row that scans fine and
one row whose scan fails; entry queries deliver nothing. -/
def c2db : VPlanDB :=
  ⟨fun _ => .ok [.ok c2raw, .error "scan failure"], fun _ => .ok [], fun _ _ => .ok []⟩

end VPlan

/-! ## Results

One theorem per specification claim, with witnesses instantiating every
theorem that carries a hypothesis. -/

namespace VPlan

set_option maxRecDepth 40000

/-- Known-answer test for the embedded SHA-256 (FIPS 180-4 test vector). -/
theorem sha256hex_abc :
    Sha256.sha256hex "abc" =
      "ba7816bf8f01cfea414140de5dae2223b00361a396177a9cb410ff61f20015ad" := by decide

/-- Authenticating `test`/`passwd` against the debug credential map succeeds
with the SHA-256 hex of `"testpasswd"` as identity and no context. -/
theorem debugAuth_test_eval :
    debugAuthenticate debugCreds "test" "passwd" =
      (some ⟨"9f0a4ae739f79351923368d1e088de65723985e61fc41806fe58543acae0325f", none⟩,
       none) := by decide

/-- C1: the round-trip claimed by the spec fails in the code.  Starting from an
empty table, `SetUserAPIToken` succeeds and stores the row, but
`GetUserAPIToken` declares its scan destination for the `expire` column as
`int64`; scanning the timestamp text `"2019-01-01 00:00:00"` into it fails, so
the call returns an empty token, the zero time and a non-nil error — not the
stored `(token, expire)` pair. -/
theorem getUserAPIToken_roundtrip_fails :
    (SetUserAPIToken execOk [] "a" "tok" ⟨2019, 1, 1, 0, 0, 0⟩).1 = none ∧
    (SetUserAPIToken execOk [] "a" "tok" ⟨2019, 1, 1, 0, 0, 0⟩).2 =
      [⟨"a", "tok", "2019-01-01 00:00:00"⟩] ∧
    GetUserAPIToken (SetUserAPIToken execOk [] "a" "tok" ⟨2019, 1, 1, 0, 0, 0⟩).2 "a" ≠
      ("tok", ⟨2019, 1, 1, 0, 0, 0⟩, none) ∧
    (GetUserAPIToken (SetUserAPIToken execOk [] "a" "tok" ⟨2019, 1, 1, 0, 0, 0⟩).2 "a").1 = "" ∧
    (GetUserAPIToken (SetUserAPIToken execOk [] "a" "tok" ⟨2019, 1, 1, 0, 0, 0⟩).2 "a").2.2 ≠
      none := by
  decide

/-- C4 counterexample: when the update attempt fails, the insert is never
attempted — so "both update and insert fail" is false — yet `SetUserAPIToken`
does return an error.  The claimed equivalence "fails exactly when both the
update and the fallback insert fail" is false at this input. -/
theorem setUserAPIToken_error_claim_false :
    ¬(((SetUserAPIToken ⟨some "update failed", none, none⟩ [] "a" "tok"
          ⟨2019, 1, 1, 0, 0, 0⟩).1 ≠ none) ↔
        ((⟨some "update failed", none, none⟩ : ExecOracle).updateErr ≠ none ∧
         (⟨some "update failed", none, none⟩ : ExecOracle).insertErr ≠ none)) := by
  decide

/-- C4 amended: `SetUserAPIToken` returns an error exactly when the update
attempt fails — `updateAPIToken.Exec` or `RowsAffected` — and that error is the
one surfaced; in every other case, a failure of the fallback insert included,
it returns nil (the insert's error is assigned to a shadowed `err` and lost). -/
theorem setUserAPIToken_error_surface (o : ExecOracle) (db : List TokenRow)
    (ident token : String) (expire : DateTime) :
    (SetUserAPIToken o db ident token expire).1 =
      (match o.updateErr with
       | some e => some e
       | none => o.rowsAffectedErr) := by
  rcases o with ⟨u, ra, i⟩
  unfold SetUserAPIToken
  cases u <;> cases ra <;> cases i <;> simp <;> split <;> simp

/-- C5: any credential pair the store does not hold — unknown username or wrong
password — makes `Authenticate` return no response and the one fixed error
`"unauthorized"`; the error is the same constant in both cases, so the caller
cannot distinguish them. -/
theorem debugAuthenticate_unauthorized (creds : List (String × String))
    (username password : String) (h : lookupCred creds username ≠ some password) :
    debugAuthenticate creds username password = (none, some "unauthorized") := by
  unfold debugAuthenticate
  cases hl : lookupCred creds username with
  | none => rfl
  | some pw =>
    have hne : (pw == password) = false := by
      rw [beq_eq_false_iff_ne]
      intro he
      exact h (by rw [hl, he])
    simp [hne]

/-- Witness for C5 at a concrete missing credential. -/
theorem debugAuthenticate_unauthorized_witness :
    lookupCred debugCreds "nobody" ≠ some "pw" ∧
    debugAuthenticate debugCreds "nobody" "pw" = (none, some "unauthorized") :=
  ⟨by decide, debugAuthenticate_unauthorized debugCreds "nobody" "pw" (by decide)⟩

/-- On success the debug provider's response is exactly the SHA-256 hex of
username+password with no context. -/
theorem debugProvider_success_ident (creds : List (String × String))
    (username group password : String) (r : AuthResponse)
    (h : debugProvider creds username group password = (some r, none)) :
    r = ⟨Sha256.sha256hex (username ++ password), none⟩ := by
  unfold debugProvider debugAuthenticate at h
  cases hl : lookupCred creds username with
  | none => rw [hl] at h; simp at h
  | some pw =>
    rw [hl] at h
    dsimp only at h
    cases hpw : pw == password with
    | false =>
      rw [if_neg (by simp [hpw])] at h
      exact absurd (congrArg Prod.fst h) (by simp)
    | true =>
      rw [if_pos hpw] at h
      exact (Option.some.inj (congrArg Prod.fst h)).symm

/-- C8: the identity returned on success is a pure function of
`(username, password)` — the SHA-256 hex of their concatenation — so two calls
of `Authenticate` with the same `(username, group, password)` inputs that both
succeed return the same identity. -/
theorem debugAuthenticate_deterministic (creds : List (String × String))
    (username group password : String) (r1 r2 : AuthResponse)
    (h1 : debugProvider creds username group password = (some r1, none))
    (h2 : debugProvider creds username group password = (some r2, none)) :
    r1.ident = r2.ident ∧ r1.ident = Sha256.sha256hex (username ++ password) := by
  rw [debugProvider_success_ident creds username group password r1 h1,
    debugProvider_success_ident creds username group password r2 h2]
  exact ⟨rfl, rfl⟩

/-- Witness for C8 at the debug credential. -/
theorem debugAuthenticate_deterministic_witness :
    debugProvider debugCreds "test" "" "passwd" =
      (some ⟨"9f0a4ae739f79351923368d1e088de65723985e61fc41806fe58543acae0325f", none⟩,
        none) ∧
    ("9f0a4ae739f79351923368d1e088de65723985e61fc41806fe58543acae0325f" : String) =
      "9f0a4ae739f79351923368d1e088de65723985e61fc41806fe58543acae0325f" ∧
    ("9f0a4ae739f79351923368d1e088de65723985e61fc41806fe58543acae0325f" : String) =
      Sha256.sha256hex ("test" ++ "passwd") := by
  have h : debugProvider debugCreds "test" "" "passwd" =
      (some ⟨"9f0a4ae739f79351923368d1e088de65723985e61fc41806fe58543acae0325f", none⟩,
        none) := debugAuth_test_eval
  refine ⟨h, ?_, ?_⟩
  · exact (debugAuthenticate_deterministic debugCreds "test" "" "passwd" _ _ h h).1
  · exact (debugAuthenticate_deterministic debugCreds "test" "" "passwd" _ _ h h).2

/-- Unfolding lemma: the SQL update maps the head of the row list. -/
theorem updateTokenRows_cons (ident token es : String) (r : TokenRow) (rest : List TokenRow) :
    updateTokenRows ident token es (r :: rest) =
      (if r.ident == ident then (⟨r.ident, token, es⟩ : TokenRow) else r) ::
        updateTokenRows ident token es rest := rfl

/-- The SQL update does not change the number of rows. -/
theorem updateTokenRows_length (ident token es : String) (db : List TokenRow) :
    (updateTokenRows ident token es db).length = db.length := by
  unfold updateTokenRows
  exact List.length_map _ _

/-- Rows of identities other than `ident` pass through the SQL update
untouched, keeping order and multiplicity. -/
theorem updateTokenRows_filter_ne (ident token es : String) (db : List TokenRow) :
    (updateTokenRows ident token es db).filter (fun r => !(r.ident == ident)) =
      db.filter (fun r => !(r.ident == ident)) := by
  induction db with
  | nil => rfl
  | cons r rest ih =>
    rw [updateTokenRows_cons]
    cases hb : r.ident == ident with
    | true => simp [List.filter_cons, hb, ih]
    | false => simp [List.filter_cons, hb, ih]

/-- Every row after the SQL update is an original row or carries the newly
written values. -/
theorem mem_updateTokenRows (ident token es : String) (db : List TokenRow) :
    ∀ r' ∈ updateTokenRows ident token es db,
      r' ∈ db ∨ r' = (⟨ident, token, es⟩ : TokenRow) := by
  induction db with
  | nil => intro r' h; cases h
  | cons r rest ih =>
    intro r' h
    rw [updateTokenRows_cons] at h
    rcases List.mem_cons.mp h with h1 | h2
    · cases hb : r.ident == ident with
      | true =>
        rw [if_pos hb] at h1
        right
        rw [h1, eq_of_beq hb]
      | false =>
        rw [if_neg (by simp [hb])] at h1
        exact Or.inl (h1 ▸ List.mem_cons_self r rest)
    · rcases ih r' h2 with ha | hnew
      · exact Or.inl (List.mem_cons_of_mem r ha)
      · exact Or.inr hnew

/-- If no row matches the identity, the SQL update is a no-op. -/
theorem updateTokenRows_eq_self_of_not_mem (ident token es : String) (db : List TokenRow)
    (h : ∀ r ∈ db, (r.ident == ident) = false) :
    updateTokenRows ident token es db = db := by
  induction db with
  | nil => rfl
  | cons r rest ih =>
    rw [updateTokenRows_cons, if_neg (by simp [h r (List.mem_cons_self r rest)]),
      ih (fun r' hr' => h r' (List.mem_cons_of_mem r hr'))]

/-- If MySQL reports zero changed rows, the SQL update left the table as it
was: every matching row already carried the new values. -/
theorem updateTokenRows_eq_self_of_changed_zero (ident token es : String) (db : List TokenRow)
    (h : rowsChanged ident token es db = 0) :
    updateTokenRows ident token es db = db := by
  induction db with
  | nil => rfl
  | cons r rest ih =>
    unfold rowsChanged at h
    rw [List.filter_cons] at h
    cases hp : (r.ident == ident && !(r.token == token && r.expire == es)) with
    | true => rw [hp] at h; simp at h
    | false =>
      rw [hp] at h
      simp only [Bool.false_eq_true, if_false] at h
      rw [updateTokenRows_cons]
      cases hb : r.ident == ident with
      | false => rw [if_neg (by simp [hb]), ih h]
      | true =>
        rw [hb] at hp
        rw [Bool.true_and] at hp
        cases hq : (r.token == token && r.expire == es) with
        | false => rw [hq] at hp; simp at hp
        | true =>
          obtain ⟨hq1, hq2⟩ := Bool.and_eq_true_iff.mp hq
          have h1 : r.token = token := eq_of_beq hq1
          have h2 : r.expire = es := eq_of_beq hq2
          have hr : (⟨r.ident, token, es⟩ : TokenRow) = r := by
            cases r with
            | mk a b c => rw [← h1, ← h2]
          rw [if_pos rfl, hr, ih h]

/-- Under the at-most-one-row-per-identity invariant, the SQL update either
leaves the table unchanged (no matching row) or rewrites exactly the one
matching row in place. -/
theorem updateTokenRows_cases (ident token es : String) (db : List TokenRow)
    (huniq : (db.filter (fun r => r.ident == ident)).length ≤ 1) :
    updateTokenRows ident token es db = db ∨
      ∃ l1 r0 l2, db = l1 ++ r0 :: l2 ∧ r0.ident = ident ∧
        updateTokenRows ident token es db = l1 ++ (⟨ident, token, es⟩ : TokenRow) :: l2 := by
  induction db with
  | nil => exact Or.inl rfl
  | cons r rest ih =>
    cases hb : r.ident == ident with
    | true =>
      have hflen : (rest.filter (fun r' => r'.ident == ident)).length = 0 := by
        rw [List.filter_cons] at huniq
        rw [hb] at huniq
        simp only [if_true] at huniq
        simp only [List.length_cons] at huniq
        omega
      have hrest : ∀ r' ∈ rest, (r'.ident == ident) = false := by
        intro r' hr'
        cases hcc : r'.ident == ident with
        | false => rfl
        | true =>
          exfalso
          have hmem : r' ∈ rest.filter (fun r' => r'.ident == ident) :=
            List.mem_filter.mpr ⟨hr', hcc⟩
          rw [List.length_eq_zero] at hflen
          rw [hflen] at hmem
          cases hmem
      right
      refine ⟨[], r, rest, rfl, eq_of_beq hb, ?_⟩
      rw [updateTokenRows_cons, if_pos hb,
        updateTokenRows_eq_self_of_not_mem ident token es rest hrest]
      rw [eq_of_beq hb]
      rfl
    | false =>
      have huniq' : (rest.filter (fun r' => r'.ident == ident)).length ≤ 1 := by
        rw [List.filter_cons] at huniq
        rw [hb] at huniq
        simpa using huniq
      rcases ih huniq' with h1 | ⟨l1, r0, l2, hdb, hid, hupd⟩
      · left
        rw [updateTokenRows_cons, if_neg (by simp [hb]), h1]
      · right
        refine ⟨r :: l1, r0, l2, by rw [hdb]; rfl, hid, ?_⟩
        rw [updateTokenRows_cons, if_neg (by simp [hb]), hupd]
        rfl

/-- Definitional reduction of `SetUserAPIToken` when the update attempt
succeeds. -/
theorem setUserAPIToken_ok_reduce (i : Option String) (db : List TokenRow)
    (ident token : String) (expire : DateTime) :
    SetUserAPIToken ⟨none, none, i⟩ db ident token expire =
      (if rowsChanged ident token (formatTimestamp expire) db < 1 then
        (match i with
         | some _ => (none, updateTokenRows ident token (formatTimestamp expire) db)
         | none => (none, updateTokenRows ident token (formatTimestamp expire) db ++
             [(⟨ident, token, formatTimestamp expire⟩ : TokenRow)]))
       else (none, updateTokenRows ident token (formatTimestamp expire) db)) := rfl

/-- The table after `SetUserAPIToken` is the old table, the SQL-updated table,
or — exactly when the update changed nothing — the old table with the new row
appended by the fallback insert. -/
theorem setUserAPIToken_shape (o : ExecOracle) (db : List TokenRow)
    (ident token : String) (expire : DateTime) :
    (SetUserAPIToken o db ident token expire).2 = db ∨
    (SetUserAPIToken o db ident token expire).2 =
      updateTokenRows ident token (formatTimestamp expire) db ∨
    (rowsChanged ident token (formatTimestamp expire) db = 0 ∧
      (SetUserAPIToken o db ident token expire).2 =
        db ++ [(⟨ident, token, formatTimestamp expire⟩ : TokenRow)]) := by
  rcases o with ⟨u, ra, i⟩
  cases u with
  | some e => exact Or.inl rfl
  | none =>
    cases ra with
    | some e => exact Or.inr (Or.inl rfl)
    | none =>
      rw [setUserAPIToken_ok_reduce]
      by_cases hch : rowsChanged ident token (formatTimestamp expire) db < 1
      · have hch0 : rowsChanged ident token (formatTimestamp expire) db = 0 := by omega
        rw [if_pos hch]
        cases i with
        | some e => exact Or.inr (Or.inl rfl)
        | none =>
          refine Or.inr (Or.inr ⟨hch0, ?_⟩)
          rw [updateTokenRows_eq_self_of_changed_zero ident token (formatTimestamp expire) db
            hch0]
      · rw [if_neg hch]
        exact Or.inr (Or.inl rfl)

/-- C3: `SetUserAPIToken` implements update-then-insert: it first attempts the
`UPDATE` keyed by `ident` and inserts only when that update reported zero
affected rows.  Consequently (i) rows of every other identity are unchanged,
with order and multiplicity; (ii) every resulting row is an original row or
the newly written record; (iii) the row count grows only when zero rows were
affected; and (iv) under the one-record-per-identity invariant the call writes
at most one record — it leaves the table unchanged, appends the one new
record, or rewrites the one matching record in place. -/
theorem setUserAPIToken_upsert (o : ExecOracle) (db : List TokenRow)
    (ident token : String) (expire : DateTime)
    (huniq : (db.filter (fun r => r.ident == ident)).length ≤ 1) :
    (SetUserAPIToken o db ident token expire).2.filter (fun r => !(r.ident == ident)) =
      db.filter (fun r => !(r.ident == ident)) ∧
    (∀ r' ∈ (SetUserAPIToken o db ident token expire).2,
      r' ∈ db ∨ r' = (⟨ident, token, formatTimestamp expire⟩ : TokenRow)) ∧
    ((SetUserAPIToken o db ident token expire).2.length ≠ db.length →
      rowsChanged ident token (formatTimestamp expire) db = 0) ∧
    ((SetUserAPIToken o db ident token expire).2 = db ∨
      (SetUserAPIToken o db ident token expire).2 =
        db ++ [(⟨ident, token, formatTimestamp expire⟩ : TokenRow)] ∨
      ∃ l1 r0 l2, db = l1 ++ r0 :: l2 ∧ r0.ident = ident ∧
        (SetUserAPIToken o db ident token expire).2 =
          l1 ++ (⟨ident, token, formatTimestamp expire⟩ : TokenRow) :: l2) := by
  rcases setUserAPIToken_shape o db ident token expire with hs | hs | ⟨hch0, hs⟩
  · rw [hs]
    exact ⟨rfl, fun r' hr' => Or.inl hr', fun hne => absurd rfl hne, Or.inl rfl⟩
  · rw [hs]
    refine ⟨updateTokenRows_filter_ne ident token (formatTimestamp expire) db,
      mem_updateTokenRows ident token (formatTimestamp expire) db, ?_, ?_⟩
    · intro hne
      exact absurd (updateTokenRows_length ident token (formatTimestamp expire) db) hne
    · rcases updateTokenRows_cases ident token (formatTimestamp expire) db huniq with
        h1 | ⟨l1, r0, l2, hdb, hid, hupd⟩
      · exact Or.inl h1
      · exact Or.inr (Or.inr ⟨l1, r0, l2, hdb, hid, hupd⟩)
  · rw [hs]
    refine ⟨?_, ?_, fun _ => hch0, Or.inr (Or.inl rfl)⟩
    · rw [List.filter_append]
      have hnil : (([(⟨ident, token, formatTimestamp expire⟩ : TokenRow)]).filter
          (fun r => !(r.ident == ident))) = [] := by simp
      rw [hnil, List.append_nil]
    · intro r' hr'
      rcases List.mem_append.mp hr' with hmem | hmem
      · exact Or.inl hmem
      · right
        simpa using hmem

/-- Witness for C3 at a concrete table holding one row of another identity. -/
theorem setUserAPIToken_upsert_witness :
    (([⟨"b", "x", "e"⟩] : List TokenRow).filter (fun r => r.ident == "a")).length ≤ 1 ∧
    ((SetUserAPIToken execOk [⟨"b", "x", "e"⟩] "a" "t" ⟨2019, 1, 1, 0, 0, 0⟩).2.filter
        (fun r => !(r.ident == "a")) =
      ([⟨"b", "x", "e"⟩] : List TokenRow).filter (fun r => !(r.ident == "a")) ∧
    (∀ r' ∈ (SetUserAPIToken execOk [⟨"b", "x", "e"⟩] "a" "t" ⟨2019, 1, 1, 0, 0, 0⟩).2,
      r' ∈ ([⟨"b", "x", "e"⟩] : List TokenRow) ∨
        r' = (⟨"a", "t", formatTimestamp ⟨2019, 1, 1, 0, 0, 0⟩⟩ : TokenRow)) ∧
    ((SetUserAPIToken execOk [⟨"b", "x", "e"⟩] "a" "t" ⟨2019, 1, 1, 0, 0, 0⟩).2.length ≠
        ([⟨"b", "x", "e"⟩] : List TokenRow).length →
      rowsChanged "a" "t" (formatTimestamp ⟨2019, 1, 1, 0, 0, 0⟩) [⟨"b", "x", "e"⟩] = 0) ∧
    ((SetUserAPIToken execOk [⟨"b", "x", "e"⟩] "a" "t" ⟨2019, 1, 1, 0, 0, 0⟩).2 =
        [⟨"b", "x", "e"⟩] ∨
      (SetUserAPIToken execOk [⟨"b", "x", "e"⟩] "a" "t" ⟨2019, 1, 1, 0, 0, 0⟩).2 =
        [⟨"b", "x", "e"⟩] ++ [(⟨"a", "t", formatTimestamp ⟨2019, 1, 1, 0, 0, 0⟩⟩ : TokenRow)] ∨
      ∃ l1 r0 l2, ([⟨"b", "x", "e"⟩] : List TokenRow) = l1 ++ r0 :: l2 ∧ r0.ident = "a" ∧
        (SetUserAPIToken execOk [⟨"b", "x", "e"⟩] "a" "t" ⟨2019, 1, 1, 0, 0, 0⟩).2 =
          l1 ++ (⟨"a", "t", formatTimestamp ⟨2019, 1, 1, 0, 0, 0⟩⟩ : TokenRow) :: l2)) :=
  ⟨by decide,
    setUserAPIToken_upsert execOk [⟨"b", "x", "e"⟩] "a" "t" ⟨2019, 1, 1, 0, 0, 0⟩ (by decide)⟩

/-- `Concat` yields nil exactly when no error was accumulated. -/
theorem meConcat_eq_none (l : List String) : meConcat l = none ↔ l = [] := by
  unfold meConcat
  cases l with
  | nil => simp
  | cons a t => simp

/-- The first `GetVPlans` loop keeps exactly the successfully scanned rows, in
order: the ids of the collected vplans are the ids of the rows whose scan
succeeded. -/
theorem scanVPlanRows_map_id (raws : List (Except String VPlanScan)) :
    (scanVPlanRows raws).1.map Database.VPlan.ID =
      (raws.filterMap Except.toOption).map VPlanScan.ID := by
  induction raws with
  | nil => rfl
  | cons raw rest ih =>
    cases raw with
    | error e => simpa [scanVPlanRows, List.filterMap_cons, Except.toOption] using ih
    | ok r => simpa [scanVPlanRows, List.filterMap_cons, Except.toOption, mkVPlan] using ih

/-- A failed row scan in the first loop always leaves a recorded error. -/
theorem scanVPlanRows_errors_ne_nil (raws : List (Except String VPlanScan)) (e : String)
    (hmem : Except.error e ∈ raws) : (scanVPlanRows raws).2 ≠ [] := by
  induction raws with
  | nil => cases hmem
  | cons raw rest ih =>
    cases raw with
    | error e1 => simp [scanVPlanRows]
    | ok r =>
      rcases List.mem_cons.mp hmem with habs | hmem2
      · cases habs
      · simpa [scanVPlanRows] using ih hmem2

/-- The second `GetVPlans` loop never drops a vplan: entry-query and
entry-scan failures only skip entries, keeping every vplan (and its id). -/
theorem attachEntries_map_id (db : VPlanDB) (cls : String) (vs : List Database.VPlan) :
    (attachEntries db cls vs).1.map Database.VPlan.ID = vs.map Database.VPlan.ID := by
  induction vs with
  | nil => rfl
  | cons v rest ih =>
    unfold attachEntries
    cases hm : (if cls != "" then db.entryRowsByClass v.ID cls else db.entryRows v.ID) with
    | error e => simpa using ih
    | ok eraws => simpa [setEntries] using ih

/-- C2 counterexample: one of two `vplan` rows fails to scan.  `GetVPlans`
does skip only the failed row — the one good vplan is collected — but the
aggregate error is non-nil, and `handlerAPIGetVPlan` therefore answers 500
and discards the data: the single row-scan failure aborts the whole
response. -/
theorem getVPlans_scanFailure_aborts :
    (GetVPlans c2db "" goZeroTime).1.length = 1 ∧
    (GetVPlans c2db "" goZeroTime).2 = some "scan failure" ∧
    handlerAPIGetVPlan true "u" "" "" goZeroTime c2db =
      VPlanResp.internalError "scan failure" := by
  decide

/-- C2 amended: inside `GetVPlans` a failed row scan skips only that row — one
vplan is returned per successfully scanned row, in order — but every row-scan
failure is recorded and makes the returned aggregate error non-nil, and
`handlerAPIGetVPlan` then discards the collected data and aborts the whole
response with a 500 carrying that error. -/
theorem getVPlans_skips_failed_rows (db : VPlanDB) (cls : String) (t : DateTime)
    (raws : List (Except String VPlanScan)) (h : db.vplanRows t = .ok raws) :
    (GetVPlans db cls t).1.map Database.VPlan.ID =
      (raws.filterMap Except.toOption).map VPlanScan.ID ∧
    ((∃ e, Except.error e ∈ raws) → (GetVPlans db cls t).2 ≠ none) ∧
    (∀ ident e, ident ≠ "" → (GetVPlans db cls t).2 = some e →
      handlerAPIGetVPlan true ident cls "" t db = VPlanResp.internalError e) := by
  have hg : GetVPlans db cls t =
      ((attachEntries db cls (scanVPlanRows raws).1).1,
        meConcat ((scanVPlanRows raws).2 ++
          (attachEntries db cls (scanVPlanRows raws).1).2)) := by
    unfold GetVPlans
    rw [h]
  refine ⟨?_, ?_, ?_⟩
  · rw [hg]
    exact (attachEntries_map_id db cls (scanVPlanRows raws).1).trans (scanVPlanRows_map_id raws)
  · rintro ⟨e, hmem⟩ hnone
    rw [hg] at hnone
    rw [meConcat_eq_none] at hnone
    exact scanVPlanRows_errors_ne_nil raws e hmem (List.append_eq_nil.mp hnone).1
  · intro ident e hne hsome
    have hid : (ident == "") = false := beq_eq_false_iff_ne.mpr hne
    have hpair : GetVPlans db cls t = ((GetVPlans db cls t).1, some e) := by
      rw [← hsome]
    unfold handlerAPIGetVPlan
    rw [if_neg (by simp), if_neg (by simp [hid])]
    simp only [beq_self_eq_true, if_true, if_pos]
    rw [hpair]

/-- Witness for C2's amended theorem at the two-row fixture. -/
theorem getVPlans_skips_failed_rows_witness :
    c2db.vplanRows goZeroTime = .ok [.ok c2raw, .error "scan failure"] ∧
    ((GetVPlans c2db "" goZeroTime).1.map Database.VPlan.ID =
      (([.ok c2raw, .error "scan failure"] :
          List (Except String VPlanScan)).filterMap Except.toOption).map VPlanScan.ID ∧
    ((∃ e, Except.error e ∈ ([.ok c2raw, .error "scan failure"] :
        List (Except String VPlanScan))) → (GetVPlans c2db "" goZeroTime).2 ≠ none) ∧
    (∀ ident e, ident ≠ "" → (GetVPlans c2db "" goZeroTime).2 = some e →
      handlerAPIGetVPlan true ident "" "" goZeroTime c2db = VPlanResp.internalError e)) :=
  ⟨rfl, getVPlans_skips_failed_rows c2db "" goZeroTime [.ok c2raw, .error "scan failure"] rfl⟩

/-- C6: logging in as `test`/`passwd` with `session = 0` through the full
handler, against the debug provider and a fresh token issue, answers HTTP 200
with body `{ident, ctx, token, expire}` where the ident is the lowercase
hex SHA-256 of `"test" + "passwd"`, the token is the (non-empty) generated
one, and the expiry `now + ttl` lies in the future; no cookie is set. -/
theorem handler_debug_login_token (g rand : String) (now ttl : Nat)
    (dma rma : Int) (saveErr : Option String) (hrand : rand ≠ "") (httl : 0 < ttl) :
    handlerAPIAuthenticate ⟨true, some "test", .ok ⟨"passwd", g, 0⟩, debugProvider debugCreds,
        dma, rma, saveErr, fun _ => tokenManagerSet none none rand now ttl⟩ =
      ⟨200, .tokenData "9f0a4ae739f79351923368d1e088de65723985e61fc41806fe58543acae0325f"
        none rand (now + ttl), none⟩ ∧
    rand ≠ "" ∧ now < now + ttl := by
  refine ⟨?_, hrand, Nat.lt_add_of_pos_right httl⟩
  have hauth : debugProvider debugCreds "test" g "passwd" =
      (some ⟨"9f0a4ae739f79351923368d1e088de65723985e61fc41806fe58543acae0325f", none⟩,
        none) := debugAuth_test_eval
  unfold handlerAPIAuthenticate
  rw [if_neg (by simp)]
  simp only []
  rw [if_neg (by decide)]
  rw [hauth]
  simp only [Option.getD_some]
  rw [if_neg (by decide)]
  simp [tokenManagerSet]

/-- Witness for C6 at concrete randomness, clock and TTL. -/
theorem handler_debug_login_token_witness :
    ("r" : String) ≠ "" ∧ (0 : Nat) < 1 ∧
    (handlerAPIAuthenticate ⟨true, some "test", .ok ⟨"passwd", "", 0⟩,
        debugProvider debugCreds, 100, 200, none,
        fun _ => tokenManagerSet none none "r" 0 1⟩ =
      ⟨200, .tokenData "9f0a4ae739f79351923368d1e088de65723985e61fc41806fe58543acae0325f"
        none "r" (0 + 1), none⟩ ∧
    ("r" : String) ≠ "" ∧ (0 : Nat) < 0 + 1) :=
  ⟨by decide, by decide,
    handler_debug_login_token "" "r" 0 1 100 200 none (by decide) (by decide)⟩

/-- C7: with the pipeline up to authentication succeeding, the body's
`session` integer selects the mode: `0` issues a bearer token and answers
`{ident, ctx, token, expire}` with no cookie; `1` establishes the cookie
session with the store's default max-age and answers `{ident, ctx}`;
any `session > 1` establishes the cookie session with the configured
"remember me" max-age. -/
theorem handler_session_modes
    (uname g passwd tok : String) (r : AuthResponse) (dma rma : Int) (exp : Nat) (s : Int)
    (ap : String → String → String → Option AuthResponse × Option String)
    (ts : String → Except String (String × Nat))
    (hpwd : passwd ≠ "")
    (hap : ap uname g passwd = (some r, none))
    (hts : ts r.ident = .ok (tok, exp)) :
    handlerAPIAuthenticate ⟨true, some uname, .ok ⟨passwd, g, 0⟩, ap, dma, rma, none, ts⟩ =
      ⟨200, .tokenData r.ident r.ctx tok exp, none⟩ ∧
    handlerAPIAuthenticate ⟨true, some uname, .ok ⟨passwd, g, 1⟩, ap, dma, rma, none, ts⟩ =
      ⟨200, .sessionData r.ident r.ctx, some ⟨r.ident, dma⟩⟩ ∧
    (1 < s →
      handlerAPIAuthenticate ⟨true, some uname, .ok ⟨passwd, g, s⟩, ap, dma, rma, none, ts⟩ =
        ⟨200, .sessionData r.ident r.ctx, some ⟨r.ident, rma⟩⟩) := by
  have hpb : (passwd == "") = false := beq_eq_false_iff_ne.mpr hpwd
  refine ⟨?_, ?_, fun hs => ?_⟩
  · unfold handlerAPIAuthenticate
    rw [if_neg (by simp)]
    simp only []
    rw [if_neg (by simp [hpb]), hap]
    simp only [Option.getD_some]
    rw [if_neg (by decide), hts]
  · unfold handlerAPIAuthenticate
    rw [if_neg (by simp)]
    simp only []
    rw [if_neg (by simp [hpb]), hap]
    simp only [Option.getD_some]
    rw [if_pos (by decide)]
    rw [if_neg (by decide)]
  · unfold handlerAPIAuthenticate
    rw [if_neg (by simp)]
    simp only []
    rw [if_neg (by simp [hpb]), hap]
    simp only [Option.getD_some]
    rw [if_pos (by omega : (0 : Int) < s)]
    rw [if_pos hs]

/-- Witness for C7 at concrete pipeline inputs (third mode applied at 2). -/
theorem handler_session_modes_witness :
    ("p" : String) ≠ "" ∧
    ((fun (_ : String) (_ : String) (_ : String) =>
        ((some (⟨"id", none⟩ : AuthResponse)), (none : Option String))) "u" "" "p" =
      (some (⟨"id", none⟩ : AuthResponse), (none : Option String))) ∧
    ((fun (_ : String) => (Except.ok ("tk", 5) : Except String (String × Nat))) "id" =
      Except.ok ("tk", 5)) ∧
    (handlerAPIAuthenticate ⟨true, some "u", .ok ⟨"p", "", 0⟩,
        (fun _ _ _ => (some ⟨"id", none⟩, none)), 100, 200, none,
        (fun _ => .ok ("tk", 5))⟩ =
      ⟨200, .tokenData "id" none "tk" 5, none⟩ ∧
    handlerAPIAuthenticate ⟨true, some "u", .ok ⟨"p", "", 1⟩,
        (fun _ _ _ => (some ⟨"id", none⟩, none)), 100, 200, none,
        (fun _ => .ok ("tk", 5))⟩ =
      ⟨200, .sessionData "id" none, some ⟨"id", 100⟩⟩ ∧
    ((1 : Int) < 2 →
      handlerAPIAuthenticate ⟨true, some "u", .ok ⟨"p", "", 2⟩,
          (fun _ _ _ => (some ⟨"id", none⟩, none)), 100, 200, none,
          (fun _ => .ok ("tk", 5))⟩ =
        ⟨200, .sessionData "id" none, some ⟨"id", 200⟩⟩)) :=
  ⟨by decide, rfl, rfl,
    handler_session_modes "u" "" "p" "tk" ⟨"id", none⟩ 100 200 5 2
      (fun _ _ _ => (some ⟨"id", none⟩, none)) (fun _ => .ok ("tk", 5))
      (by decide) rfl rfl⟩

/-- Reduction of the authenticate handler once the pipeline reaches a provider
answering `(some r0, nil)`. -/
theorem handler_authed_reduce
    (uname passwd g : String) (s : Int) (dma rma : Int) (se : Option String)
    (ap : String → String → String → Option AuthResponse × Option String)
    (ts : String → Except String (String × Nat)) (r0 : AuthResponse)
    (hpb : (passwd == "") = false)
    (hap : ap uname g passwd = (some r0, none)) :
    handlerAPIAuthenticate ⟨true, some uname, .ok ⟨passwd, g, s⟩, ap, dma, rma, se, ts⟩ =
      (if s > 0 then
        (match se with
         | some e => (⟨500, .err 500 e, none⟩ : HttpResponse)
         | none => ⟨200, .sessionData r0.ident r0.ctx,
             some ⟨r0.ident, if s > 1 then rma else dma⟩⟩)
       else
        (match ts r0.ident with
         | .error e => (⟨500, .err 500 e, none⟩ : HttpResponse)
         | .ok te => ⟨200, .tokenData r0.ident r0.ctx te.1 te.2, none⟩)) := by
  unfold handlerAPIAuthenticate
  rw [if_neg (by simp)]
  simp only []
  rw [if_neg (by simp [hpb]), hap]
  rfl

/-- Reduction of the authenticate handler when the provider answers a nil
response together with a nil error: the handler continues with the substituted
empty `auth.Response`. -/
theorem handler_nilprov_reduce
    (uname passwd g : String) (s : Int) (dma rma : Int) (se : Option String)
    (ap : String → String → String → Option AuthResponse × Option String)
    (ts : String → Except String (String × Nat))
    (hpb : (passwd == "") = false)
    (hap : ap uname g passwd = (none, none)) :
    handlerAPIAuthenticate ⟨true, some uname, .ok ⟨passwd, g, s⟩, ap, dma, rma, se, ts⟩ =
      (if s > 0 then
        (match se with
         | some e => (⟨500, .err 500 e, none⟩ : HttpResponse)
         | none => ⟨200, .sessionData "" none, some ⟨"", if s > 1 then rma else dma⟩⟩)
       else
        (match ts "" with
         | .error e => (⟨500, .err 500 e, none⟩ : HttpResponse)
         | .ok te => ⟨200, .tokenData "" none te.1 te.2, none⟩)) := by
  unfold handlerAPIAuthenticate
  rw [if_neg (by simp)]
  simp only []
  rw [if_neg (by simp [hpb]), hap]
  rfl

/-- C9: when the provider answers a nil response with a nil error, the handler
substitutes an empty `auth.Response`, so the run is identical to one whose
provider returned that empty response, and the success replies carry an empty
ident and nil context instead of failing. -/
theorem handler_nil_auth_response
    (uname passwd g : String) (s : Int) (dma rma : Int) (se : Option String)
    (ap : String → String → String → Option AuthResponse × Option String)
    (ts : String → Except String (String × Nat))
    (hpwd : passwd ≠ "")
    (hap : ap uname g passwd = (none, none)) :
    handlerAPIAuthenticate ⟨true, some uname, .ok ⟨passwd, g, s⟩, ap, dma, rma, se, ts⟩ =
      handlerAPIAuthenticate ⟨true, some uname, .ok ⟨passwd, g, s⟩,
        (fun _ _ _ => (some ⟨"", none⟩, none)), dma, rma, se, ts⟩ ∧
    (∀ tk e, s ≤ 0 → ts "" = .ok (tk, e) →
      handlerAPIAuthenticate ⟨true, some uname, .ok ⟨passwd, g, s⟩, ap, dma, rma, se, ts⟩ =
        ⟨200, .tokenData "" none tk e, none⟩) ∧
    (0 < s → se = none →
      handlerAPIAuthenticate ⟨true, some uname, .ok ⟨passwd, g, s⟩, ap, dma, rma, se, ts⟩ =
        ⟨200, .sessionData "" none, some ⟨"", if s > 1 then rma else dma⟩⟩) := by
  have hpb : (passwd == "") = false := beq_eq_false_iff_ne.mpr hpwd
  have hred := (handler_nilprov_reduce uname passwd g s dma rma se ap ts hpb hap).trans
    (handler_authed_reduce uname passwd g s dma rma se
      (fun _ _ _ => (some ⟨"", none⟩, none)) ts ⟨"", none⟩ hpb rfl).symm
  refine ⟨hred, fun tk e hs hts => ?_, fun hs hse => ?_⟩
  · rw [handler_nilprov_reduce uname passwd g s dma rma se ap ts hpb hap,
      if_neg (by omega : ¬s > 0), hts]
  · rw [handler_nilprov_reduce uname passwd g s dma rma se ap ts hpb hap, hse,
      if_pos hs]

/-- Witness for C9 at a concrete nil-returning provider (token mode). -/
theorem handler_nil_auth_response_witness :
    ("p" : String) ≠ "" ∧
    ((fun (_ : String) (_ : String) (_ : String) =>
        ((none : Option AuthResponse), (none : Option String))) "u" "" "p" =
      ((none : Option AuthResponse), (none : Option String))) ∧
    (handlerAPIAuthenticate ⟨true, some "u", .ok ⟨"p", "", 0⟩,
        (fun _ _ _ => (none, none)), 100, 200, none, (fun _ => .ok ("tk", 5))⟩ =
      handlerAPIAuthenticate ⟨true, some "u", .ok ⟨"p", "", 0⟩,
        (fun _ _ _ => (some ⟨"", none⟩, none)), 100, 200, none,
        (fun _ => .ok ("tk", 5))⟩ ∧
    (∀ tk e, (0 : Int) ≤ 0 →
      (fun (_ : String) => (Except.ok ("tk", 5) : Except String (String × Nat))) "" =
        .ok (tk, e) →
      handlerAPIAuthenticate ⟨true, some "u", .ok ⟨"p", "", 0⟩,
          (fun _ _ _ => (none, none)), 100, 200, none, (fun _ => .ok ("tk", 5))⟩ =
        ⟨200, .tokenData "" none tk e, none⟩) ∧
    ((0 : Int) < 0 → (none : Option String) = none →
      handlerAPIAuthenticate ⟨true, some "u", .ok ⟨"p", "", 0⟩,
          (fun _ _ _ => (none, none)), 100, 200, none, (fun _ => .ok ("tk", 5))⟩ =
        ⟨200, .sessionData "" none, some ⟨"", if (0 : Int) > 1 then 200 else 100⟩⟩)) :=
  ⟨by decide, rfl,
    handler_nil_auth_response "u" "p" "" 0 100 200 none
      (fun _ _ _ => (none, none)) (fun _ => .ok ("tk", 5)) (by decide) rfl⟩

/-- C10: every `session ≤ 0`, negative values included, takes the bearer-token
branch: the run equals the `session = 0` run, answers the token body and sets
no cookie. -/
theorem handler_nonpositive_session_token
    (uname g passwd tok : String) (r : AuthResponse) (dma rma : Int) (exp : Nat) (s : Int)
    (se : Option String)
    (ap : String → String → String → Option AuthResponse × Option String)
    (ts : String → Except String (String × Nat))
    (hs : s ≤ 0) (hpwd : passwd ≠ "")
    (hap : ap uname g passwd = (some r, none))
    (hts : ts r.ident = .ok (tok, exp)) :
    handlerAPIAuthenticate ⟨true, some uname, .ok ⟨passwd, g, s⟩, ap, dma, rma, se, ts⟩ =
      ⟨200, .tokenData r.ident r.ctx tok exp, none⟩ ∧
    handlerAPIAuthenticate ⟨true, some uname, .ok ⟨passwd, g, s⟩, ap, dma, rma, se, ts⟩ =
      handlerAPIAuthenticate ⟨true, some uname, .ok ⟨passwd, g, 0⟩, ap, dma, rma, se, ts⟩ := by
  have hpb : (passwd == "") = false := beq_eq_false_iff_ne.mpr hpwd
  have key : ∀ s' : Int, s' ≤ 0 →
      handlerAPIAuthenticate ⟨true, some uname, .ok ⟨passwd, g, s'⟩, ap, dma, rma, se, ts⟩ =
        ⟨200, .tokenData r.ident r.ctx tok exp, none⟩ := by
    intro s' hs'
    unfold handlerAPIAuthenticate
    rw [if_neg (by simp)]
    simp only []
    rw [if_neg (by simp [hpb]), hap]
    simp only [Option.getD_some]
    rw [if_neg (by omega : ¬(0 : Int) < s'), hts]
  exact ⟨key s hs, (key s hs).trans (key 0 le_rfl).symm⟩

/-- Witness for C10 at `session = -3`. -/
theorem handler_nonpositive_session_token_witness :
    (-3 : Int) ≤ 0 ∧ ("p" : String) ≠ "" ∧
    ((fun (_ : String) (_ : String) (_ : String) =>
        ((some (⟨"id", none⟩ : AuthResponse)), (none : Option String))) "u" "" "p" =
      (some (⟨"id", none⟩ : AuthResponse), (none : Option String))) ∧
    ((fun (_ : String) => (Except.ok ("tk", 5) : Except String (String × Nat))) "id" =
      Except.ok ("tk", 5)) ∧
    (handlerAPIAuthenticate ⟨true, some "u", .ok ⟨"p", "", -3⟩,
        (fun _ _ _ => (some ⟨"id", none⟩, none)), 100, 200, none,
        (fun _ => .ok ("tk", 5))⟩ =
      ⟨200, .tokenData "id" none "tk" 5, none⟩ ∧
    handlerAPIAuthenticate ⟨true, some "u", .ok ⟨"p", "", -3⟩,
        (fun _ _ _ => (some ⟨"id", none⟩, none)), 100, 200, none,
        (fun _ => .ok ("tk", 5))⟩ =
      handlerAPIAuthenticate ⟨true, some "u", .ok ⟨"p", "", 0⟩,
        (fun _ _ _ => (some ⟨"id", none⟩, none)), 100, 200, none,
        (fun _ => .ok ("tk", 5))⟩) :=
  ⟨by decide, by decide, rfl, rfl,
    handler_nonpositive_session_token "u" "" "p" "tk" ⟨"id", none⟩ 100 200 5 (-3) none
      (fun _ _ _ => (some ⟨"id", none⟩, none)) (fun _ => .ok ("tk", 5))
      (by decide) (by decide) rfl rfl⟩

end VPlan
